import Mathlib

/-!
Shallow embedding of the webhook ingestion gateway of the stream-notification
bot: the Flask handlers `twitch_webhook` (src/main.py lines 487-572) and
`youtube_webhook` (src/main.py lines 574-624), together with the registry read
`StreamDatabase.get_subscription` (src/database.py lines 53-55).

Modelling conventions, stated once:
* `request.get_json()` is modelled as an `Option JsonVal` input: `none` stands
  for a body from which no JSON value was obtained.  The code itself guards
  with `if not json_data`, i.e. it assumes the returning (not raising) variant.
* Outbound calls made by the handler (the secondary Twitch Helix streams call,
  `bot.get_channel`) are inputs of the handler: the handler only branches on
  their results, so each is passed in as the value it returned.  An exception
  raised by the streams call is the `Except.error` case.
* HMAC-SHA256 is a pure function of the secret and the message; it enters the
  model as a function-valued parameter `hmacHex`.  The code concatenates the
  UTF-8 bytes of id, timestamp and body; concatenation of strings corresponds
  to concatenation of their UTF-8 encodings, so the message is modelled as a
  `String`.  `hmac.compare_digest` on two hex/ASCII strings is equality.
* An exception that escapes the handler is turned into an HTTP 500 response by
  Flask; that terminal state is `HttpResult.serverError`.
* `abort(403)` produces a 403 response whose (framework-generated) body is
  modelled as the empty string.
-/

/-- A JSON value as produced by parsing a request body.  Numbers are modelled
as integers; no claim involves fractional numbers. -/
inductive JsonVal where
  | null
  | bool (b : Bool)
  | num (n : Int)
  | str (s : String)
  | arr (elems : List JsonVal)
  | obj (fields : List (String × JsonVal))

/-- Python truthiness of a JSON value (`if json_data:`): `None`, `False`, `0`,
empty string, empty list and empty dict are falsy. -/
def pyTruthy : JsonVal → Bool
  | .null => false
  | .bool b => b
  | .num n => n != 0
  | .str s => !s.isEmpty
  | .arr es => !es.isEmpty
  | .obj fs => !fs.isEmpty

/-- Python `k in j` for a string `k`: key membership for a dict, element
membership for a list (only a string element can equal `k`), substring test
for a string, and a `TypeError` (modelled as `.error`) for the other types. -/
def pyContains (j : JsonVal) (k : String) : Except Unit Bool :=
  match j with
  | .obj fs => .ok (fs.lookup k).isSome
  | .arr es => .ok (es.any fun e => match e with | .str s => s == k | _ => false)
  | .str s => .ok (k.isEmpty || decide ((s.splitOn k).length > 1))
  | _ => .error ()

/-- Python `j[k]` for a string `k`: dict lookup (`KeyError` when absent),
`TypeError` on every non-dict value.  Both exceptions are `.error`. -/
def pyGetItem (j : JsonVal) (k : String) : Except Unit JsonVal :=
  match j with
  | .obj fs =>
    match fs.lookup k with
    | some v => .ok v
    | none => .error ()
  | _ => .error ()

/-- Python string interpolation `f"...{j}..."` of a JSON value.  The scalar
cases match `str()`; the composite reprs are abbreviated, no claim depends on
interpolating a composite value. -/
def pyStr : JsonVal → String
  | .str s => s
  | .num n => toString n
  | .bool b => if b then "True" else "False"
  | .null => "None"
  | .arr _ => "[...]"
  | .obj _ => "\x7b...\x7d"

/-- A subscription record as written by `StreamDatabase.add_subscription`
(src/database.py lines 32-44); every stored dict has exactly these keys. -/
structure Subscription where
  platform : String
  guild_id : Int
  channel_id : Int
  name : String
  subscription_id : Option String
  custom_message : Option String
deriving DecidableEq

/-- The registry `self.data`: a string-keyed mapping from streamer id to its
subscription record (keys of a JSON object file are unique strings). -/
abbrev Db := List (String × Subscription)

/-- src/database.py lines 53-55: `return self.data.get(streamer_id)`, a pure
read of the mapping. -/
def get_subscription (db : Db) (sid : String) : Option Subscription :=
  db.lookup sid

/-- `self.data.get(key)` when the key is an arbitrary JSON value, as in
`db.get_subscription(user_id)` at src/main.py line 521: a dict or list key is
unhashable (`TypeError`, modelled `.error`); any other non-string key is
hashable but cannot equal a string key, so the lookup misses. -/
def dbGetPy (db : Db) (key : JsonVal) : Except Unit (Option Subscription) :=
  match key with
  | .str s => .ok (get_subscription db s)
  | .obj _ => .error ()
  | .arr _ => .error ()
  | _ => .ok none

/-- Result of `bot.get_channel`: the only property the handlers test on the
returned object is `hasattr(channel, "send")`. -/
structure SinkChannel where
  hasSend : Bool
deriving DecidableEq

/-- The fields of a `discord.Embed` that the handlers populate. -/
structure Embed where
  title : String
  description : String
  url : String
  color : String
  thumbnailUrl : String
  footerText : String
deriving DecidableEq

/-- One `channel.send(content=..., embed=...)` task handed to the sink via
`bot.loop.create_task`. -/
structure Dispatch where
  channelId : Int
  content : Option String
  embed : Embed
deriving DecidableEq

/-- Terminal HTTP outcome of one request: a normal `(body, status)` return, or
an uncaught exception that Flask converts to a 500 response. -/
inductive HttpResult where
  | resp (status : Nat) (body : String)
  | serverError
deriving DecidableEq

/-- Everything observable about one handled request: the HTTP response, the
sink dispatches created, and the registry state after the request. -/
structure Outcome where
  response : HttpResult
  dispatches : List Dispatch
  db : Db
deriving DecidableEq

/-- One element of the `data` array of the Helix streams response; the code
reads `game_name` and `title` with `.get` defaults (src/main.py 544-545). -/
structure StreamInfo where
  game_name : Option String
  title : Option String

/-- The inbound Twitch request: the four `Twitch-Eventsub-*` headers (absent
header = `none`), the raw body, and the parsed JSON body. -/
structure TwitchRequest where
  messageId : Option String
  messageTimestamp : Option String
  messageSignature : Option String
  messageType : Option String
  body : String
  jsonBody : Option JsonVal

/-- Ambient inputs of the Twitch handler: the shared secret, the HMAC-SHA256
hex function, the result of the secondary Helix streams call (the value of
`stream_response.json().get("data", [])`, or `.error` when any step of the
call raised), and channel resolution. -/
structure TwitchEnv where
  secret : String
  hmacHex : String → String → String
  streamsResult : Except Unit (List StreamInfo)
  getChannel : Int → Option SinkChannel

/-- The `timeout` argument of the `requests.get` call fetching stream details
at src/main.py line 538.  The call passes no `timeout` keyword, so the
requests-library default `None` applies: the call waits indefinitely. -/
def streamDetailsRequestTimeout : Option Nat := none

/-- src/main.py lines 491-497: the expected signature, `"sha256=" +` the hex
HMAC of `message_id + message_timestamp + request.data`, with each absent
header read as the empty string (`headers.get(name, "")`). -/
def twitchExpectedSignature (req : TwitchRequest) (env : TwitchEnv) : String :=
  "sha256=" ++ env.hmacHex env.secret
    ((req.messageId.getD "") ++ (req.messageTimestamp.getD "") ++ req.body)

/-- src/main.py lines 557-567: the embed rendered for a Twitch notification. -/
def renderTwitchEmbed (username streamTitle gameName userId : String) : Embed :=
  { title := username ++ " is now LIVE on Twitch!"
    description := "**" ++ streamTitle ++ "**\nPlaying: **" ++ gameName ++
      "**\n\n[Click here to watch!](https://twitch.tv/" ++ username ++ ")"
    url := "https://twitch.tv/" ++ username
    color := "purple"
    thumbnailUrl := "https://static-cdn.jtvnw.net/jtv_user_pictures/" ++ userId
      ++ "-profile_image-300x300.png"
    footerText := "Click the title to watch the stream!" }

/-- src/main.py lines 609-616: the embed rendered for a YouTube notification. -/
def renderYoutubeEmbed (channelName videoTitle videoId : String) : Embed :=
  { title := channelName ++ " is now LIVE on YouTube!"
    description := videoTitle ++
      "\n\n[Click here to watch!](https://www.youtube.com/watch?v=" ++ videoId ++ ")"
    url := "https://www.youtube.com/watch?v=" ++ videoId
    color := "red"
    thumbnailUrl := "https://i.ytimg.com/vi/" ++ videoId ++ "/maxresdefault.jpg"
    footerText := "Click the title to watch the stream!" }

/-- src/main.py lines 534-547: `(game_name, stream_title)` after the guarded
secondary call.  The defaults set before the `try` block survive an exception
and an empty `data` array; a non-empty array replaces them through `.get` with
its own defaults. -/
def enrichTwitch (r : Except Unit (List StreamInfo)) : String × String :=
  match r with
  | .error _ => ("No Category", "Stream is Live!")
  | .ok [] => ("No Category", "Stream is Live!")
  | .ok (si :: _) => (si.game_name.getD "No Category", si.title.getD "No Title")

/-- src/main.py lines 506-510: the `webhook_callback_verification` branch.
The code echoes `json_data["challenge"]` as the response body; for a
non-string challenge value the framework conversion of the return value is
version-dependent and is modelled as a server error (no claim reaches it). -/
def twitchChallengeBranch (jsonBody : Option JsonVal) (db : Db) : Outcome :=
  match jsonBody with
  | none => ⟨.resp 200 "OK", [], db⟩
  | some j =>
    if pyTruthy j then
      match pyContains j "challenge" with
      | .error _ => ⟨.serverError, [], db⟩
      | .ok false => ⟨.resp 200 "OK", [], db⟩
      | .ok true =>
        match pyGetItem j "challenge" with
        | .ok (.str c) => ⟨.resp 200 c, [], db⟩
        | _ => ⟨.serverError, [], db⟩
    else ⟨.resp 200 "OK", [], db⟩

/-- src/main.py lines 527-570: enrichment, channel resolution and dispatch for
a notification whose subscription was found with platform `twitch`. -/
def twitchDispatchStep (env : TwitchEnv) (db : Db) (event user_id : JsonVal)
    (sub : Subscription) : Outcome :=
  match env.getChannel sub.channel_id with
  | none => ⟨.resp 200 "OK", [], db⟩
  | some ch =>
    if ch.hasSend then
      match pyGetItem event "broadcaster_user_name" with
      | .error _ => ⟨.serverError, [], db⟩
      | .ok username =>
        ⟨.resp 200 "OK",
          [⟨sub.channel_id, sub.custom_message,
            renderTwitchEmbed (pyStr username) (enrichTwitch env.streamsResult).2
              (enrichTwitch env.streamsResult).1 (pyStr user_id)⟩], db⟩
    else ⟨.resp 200 "OK", [], db⟩

/-- src/main.py lines 513-570: the `notification` branch.  The guard at line
515 returns 200 for a falsy or eventless JSON body; the unguarded subscripts
at lines 518-519 raise on a missing `event` payload member. -/
def twitchNotificationBranch (req : TwitchRequest) (env : TwitchEnv) (db : Db) :
    Outcome :=
  match req.jsonBody with
  | none => ⟨.resp 200 "OK", [], db⟩
  | some j =>
    if pyTruthy j then
      match pyContains j "event" with
      | .error _ => ⟨.serverError, [], db⟩
      | .ok false => ⟨.resp 200 "OK", [], db⟩
      | .ok true =>
        match pyGetItem j "event" with
        | .error _ => ⟨.serverError, [], db⟩
        | .ok event =>
          match pyGetItem event "broadcaster_user_id" with
          | .error _ => ⟨.serverError, [], db⟩
          | .ok user_id =>
            match dbGetPy db user_id with
            | .error _ => ⟨.serverError, [], db⟩
            | .ok none => ⟨.resp 200 "OK", [], db⟩
            | .ok (some sub) =>
              if sub.platform = "twitch" then
                twitchDispatchStep env db event user_id sub
              else ⟨.resp 200 "OK", [], db⟩
    else ⟨.resp 200 "OK", [], db⟩

/-- src/main.py lines 487-572: the Twitch webhook route.  Signature
verification first (403 on mismatch), then branch on the message type; any
unrecognized type is acknowledged with 200. -/
def twitch_webhook (req : TwitchRequest) (env : TwitchEnv) (db : Db) : Outcome :=
  if twitchExpectedSignature req env = req.messageSignature.getD "" then
    if req.messageType = some "webhook_callback_verification" then
      twitchChallengeBranch req.jsonBody db
    else if req.messageType = some "notification" then
      twitchNotificationBranch req env db
    else ⟨.resp 200 "OK", [], db⟩
  else ⟨.resp 403 "", [], db⟩

/-- HTTP method of the YouTube route (src/main.py line 574 restricts the route
to GET and POST). -/
inductive HttpMethod where
  | get
  | post
deriving DecidableEq

/-- The entry extracted from the parsed Atom body, i.e. the values of
`entry.get("yt:videoId")`, `entry.get("yt:channelId")` and
`entry.get("title")` after `xml_data.get("feed", {}).get("entry", {})`
(src/main.py lines 588-592). -/
structure YtEntry where
  videoId : Option String
  channelId : Option String
  title : Option String

/-- src/main.py lines 574-624: the YouTube webhook route.  GET echoes a
non-empty `hub.challenge` query value.  POST wraps parsing, extraction and
dispatch in one `try` whose `except` also answers 200, so `parsed` is the
outcome of `xmltodict.parse` plus entry extraction (`.error` when any step of
it raised).  A falsy (absent or empty) video or channel id ends the request
with 200 before any lookup. -/
def youtube_webhook (method : HttpMethod) (hubChallenge : Option String)
    (parsed : Except Unit YtEntry) (getChannel : Int → Option SinkChannel)
    (db : Db) : Outcome :=
  match method with
  | .get =>
    match hubChallenge with
    | some c => if !c.isEmpty then ⟨.resp 200 c, [], db⟩ else ⟨.resp 200 "OK", [], db⟩
    | none => ⟨.resp 200 "OK", [], db⟩
  | .post =>
    match parsed with
    | .error _ => ⟨.resp 200 "OK", [], db⟩
    | .ok entry =>
      match entry.videoId, entry.channelId with
      | some v, some c =>
        if v.isEmpty || c.isEmpty then ⟨.resp 200 "OK", [], db⟩
        else
          match get_subscription db c with
          | none => ⟨.resp 200 "OK", [], db⟩
          | some sub =>
            if sub.platform = "youtube" then
              match getChannel sub.channel_id with
              | none => ⟨.resp 200 "OK", [], db⟩
              | some ch =>
                if ch.hasSend then
                  ⟨.resp 200 "OK",
                    [⟨sub.channel_id, sub.custom_message,
                      renderYoutubeEmbed sub.name (entry.title.getD "New Video") v⟩],
                    db⟩
                else ⟨.resp 200 "OK", [], db⟩
            else ⟨.resp 200 "OK", [], db⟩
      | _, _ => ⟨.resp 200 "OK", [], db⟩

/-! Concrete inputs used by witnesses and counterexamples. -/

/-- Subscription hit by the replayed notification of the C1 counterexample. -/
def subC1 : Subscription := ⟨"twitch", 1, 99, "alice", some "sid", none⟩

/-- Registry for the C1 counterexample. -/
def dbC1 : Db := [("123", subC1)]

/-- Environment for the C1 counterexample: matching digest, erroring
enrichment call, resolvable sendable channel. -/
def envC1 : TwitchEnv := ⟨"sec", fun _ _ => "d1", .error (), fun _ => some ⟨true⟩⟩

/-- A signature-valid Twitch notification for broadcaster 123. -/
def reqC1 : TwitchRequest :=
  ⟨some "m1", some "t1", some "sha256=d1", some "notification", "B1",
    some (.obj [("event", .obj [("broadcaster_user_id", .str "123"),
      ("broadcaster_user_name", .str "Alice")])])⟩

/-- A signature-valid notification whose event lacks `broadcaster_user_id`. -/
def reqC2 : TwitchRequest :=
  ⟨some "m2", some "t2", some "sha256=d2", some "notification", "B2",
    some (.obj [("event", .obj [])])⟩

/-- Environment for the C2 failing input. -/
def envC2 : TwitchEnv := ⟨"sec", fun _ _ => "d2", .error (), fun _ => none⟩

/-- A request with no `Twitch-Eventsub-Message-Id` header whose signature
matches the message built from the empty-string substitute. -/
def reqC3 : TwitchRequest :=
  ⟨none, some "t3", some "sha256=d3", some "notification", "B3", none⟩

/-- Environment for the C3 counterexample. -/
def envC3 : TwitchEnv := ⟨"sec", fun _ _ => "d3", .error (), fun _ => none⟩

/-- A request with no signature header at all. -/
def reqC3w : TwitchRequest :=
  ⟨some "m", some "t", none, some "notification", "B", none⟩

/-- Environment for the C3 witness. -/
def envC3w : TwitchEnv := ⟨"sec", fun _ _ => "zz", .error (), fun _ => none⟩

/-- Subscription dispatched with enrichment fallbacks in the C4 witness. -/
def subC4 : Subscription := ⟨"twitch", 1, 7, "bob", none, some "ping"⟩

/-- Event payload of the C4 witness. -/
def evC4 : List (String × JsonVal) :=
  [("broadcaster_user_id", .str "42"), ("broadcaster_user_name", .str "Bob")]

/-- JSON body of the C4 witness. -/
def fsC4 : List (String × JsonVal) := [("event", .obj evC4)]

/-- Signature-valid notification for broadcaster 42. -/
def reqC4 : TwitchRequest :=
  ⟨some "m4", some "t4", some "sha256=d4", some "notification", "B4",
    some (.obj fsC4)⟩

/-- Environment for the C4 witness: the secondary streams call raises. -/
def envC4 : TwitchEnv := ⟨"sec", fun _ _ => "d4", .error (), fun _ => some ⟨true⟩⟩

/-- Registry for the C4 witness. -/
def dbC4 : Db := [("42", subC4)]

/-- JSON body of the C6 witness: a handshake carrying challenge abc123. -/
def fsC6 : List (String × JsonVal) := [("challenge", .str "abc123")]

/-- Signature-valid handshake request. -/
def reqC6 : TwitchRequest :=
  ⟨some "m6", some "t6", some "sha256=d6", some "webhook_callback_verification",
    "B6", some (.obj fsC6)⟩

/-- Environment for the C6 witness. -/
def envC6 : TwitchEnv := ⟨"sec", fun _ _ => "d6", .error (), fun _ => none⟩

/-- Parsed entry of the C7 witness: the video id is absent. -/
def entryC7 : YtEntry := ⟨none, some "UCx", some "T"⟩

/-- Channel resolution for the C7 witness. -/
def gcC7 : Int → Option SinkChannel := fun _ => none

/-- Event payload of the C8 witness. -/
def evC8 : List (String × JsonVal) :=
  [("broadcaster_user_id", .str "77"), ("broadcaster_user_name", .str "Nia")]

/-- JSON body of the C8 witness. -/
def fsC8 : List (String × JsonVal) := [("event", .obj evC8)]

/-- Signature-valid notification for broadcaster 77, not in the registry. -/
def reqC8 : TwitchRequest :=
  ⟨some "m8", some "t8", some "sha256=d8", some "notification", "B8",
    some (.obj fsC8)⟩

/-- Environment for the C8 witness. -/
def envC8 : TwitchEnv := ⟨"sec", fun _ _ => "d8", .error (), fun _ => none⟩

/-- A YouTube-platform record keyed by an id that a Twitch event also uses. -/
def subC10yt : Subscription := ⟨"youtube", 1, 3, "ytname", none, none⟩

/-- Registry holding only the colliding YouTube record. -/
def dbC10 : Db := [("555", subC10yt)]

/-- Event payload of the C10 witness, broadcaster 555. -/
def evC10 : List (String × JsonVal) := [("broadcaster_user_id", .str "555")]

/-- JSON body of the C10 witness. -/
def fsC10 : List (String × JsonVal) := [("event", .obj evC10)]

/-- Signature-valid Twitch notification for the colliding id 555. -/
def reqC10 : TwitchRequest :=
  ⟨some "mA", some "tA", some "sha256=dA", some "notification", "BA",
    some (.obj fsC10)⟩

/-- Environment for the C10 witness. -/
def envC10 : TwitchEnv := ⟨"sec", fun _ _ => "dA", .error (), fun _ => some ⟨true⟩⟩

/-- A Twitch-platform record keyed by an id that a YouTube feed also uses. -/
def subC10tw : Subscription := ⟨"twitch", 1, 4, "twname", none, none⟩

/-- Registry holding only the colliding Twitch record. -/
def dbC10y : Db := [("UC9", subC10tw)]

/-- Parsed entry of the C10 witness, channel UC9. -/
def entryC10 : YtEntry := ⟨some "vid", some "UC9", some "T"⟩

/-- Channel resolution for the C10 witness. -/
def gcC10 : Int → Option SinkChannel := fun _ => some ⟨true⟩

/-! Helper lemmas shared by several claim theorems. -/

/-- A dict with a successful lookup is not empty. -/
theorem lookup_isEmpty_false {fs : List (String × JsonVal)} {k : String}
    {v : JsonVal} (h : fs.lookup k = some v) : fs.isEmpty = false := by
  cases fs with
  | nil => simp [List.lookup] at h
  | cons a l => rfl

/-- The expected signature always starts with `sha256=`, hence is nonempty. -/
theorem sha256_append_ne_empty (s : String) : "sha256=" ++ s ≠ "" := by
  intro h
  have hlen : ("sha256=" ++ s).length = ("" : String).length :=
    congrArg String.length h
  rw [String.length_append] at hlen
  have h7 : ("sha256=" : String).length = 7 := rfl
  have h0 : ("" : String).length = 0 := rfl
  rw [h7, h0] at hlen
  omega

/-- The dispatch step never answers 403. -/
theorem twitchDispatchStep_response_ne_403 (env : TwitchEnv) (db : Db)
    (event user_id : JsonVal) (sub : Subscription) :
    (twitchDispatchStep env db event user_id sub).response ≠ .resp 403 "" := by
  unfold twitchDispatchStep
  repeat' split
  all_goals simp

/-- The challenge branch never answers 403. -/
theorem twitchChallengeBranch_response_ne_403 (jb : Option JsonVal) (db : Db) :
    (twitchChallengeBranch jb db).response ≠ .resp 403 "" := by
  unfold twitchChallengeBranch
  repeat' split
  all_goals simp

/-- The notification branch never answers 403. -/
theorem twitchNotificationBranch_response_ne_403 (req : TwitchRequest)
    (env : TwitchEnv) (db : Db) :
    (twitchNotificationBranch req env db).response ≠ .resp 403 "" := by
  unfold twitchNotificationBranch
  repeat' split
  all_goals first
    | exact twitchDispatchStep_response_ne_403 _ _ _ _ _
    | simp

/-- The Twitch handler returns the registry unchanged. -/
theorem twitch_webhook_db_eq (req : TwitchRequest) (env : TwitchEnv) (db : Db) :
    (twitch_webhook req env db).db = db := by
  unfold twitch_webhook twitchChallengeBranch twitchNotificationBranch
    twitchDispatchStep
  repeat' split
  all_goals rfl

/-- The YouTube handler returns the registry unchanged. -/
theorem youtube_webhook_db_eq (m : HttpMethod) (hc : Option String)
    (parsed : Except Unit YtEntry) (gc : Int → Option SinkChannel) (db : Db) :
    (youtube_webhook m hc parsed gc db).db = db := by
  unfold youtube_webhook
  repeat' split
  all_goals rfl

/-! Claim theorems. -/

/-- C1 (amended): the gateway keeps no dedupe state, so delivering the
identical signed notification a second time produces exactly the same
dispatches as the first delivery (one dispatch per delivery, not one in
total), and the first delivery leaves the registry unchanged. -/
theorem twitch_replay_dispatches_identically (req : TwitchRequest)
    (env : TwitchEnv) (db : Db) :
    (twitch_webhook req env ((twitch_webhook req env db).db)).dispatches =
      (twitch_webhook req env db).dispatches ∧
    (twitch_webhook req env db).db = db := by
  have h := twitch_webhook_db_eq req env db
  rw [h]
  exact ⟨rfl, rfl⟩

/-- C1 counterexample: a concrete signature-valid notification dispatched
once per delivery; replaying it with the same `Message-Id` yields two
dispatches in total, not one. -/
theorem twitch_replay_two_dispatches_cex :
    (twitch_webhook reqC1 envC1 dbC1).dispatches.length +
      (twitch_webhook reqC1 envC1
        ((twitch_webhook reqC1 envC1 dbC1).db)).dispatches.length = 2 := by
  rfl

/-- C2: at the failing input, a signature-valid `notification` whose event
object lacks `broadcaster_user_id`, the unguarded subscript at src/main.py
line 519 raises `KeyError`, so the response is a 500 server error, not 200;
no dispatch occurs. -/
theorem twitch_missing_broadcaster_id_server_error :
    (twitch_webhook reqC2 envC2 []).response = .serverError ∧
    (twitch_webhook reqC2 envC2 []).dispatches = [] :=
  ⟨rfl, rfl⟩

/-- C3 (amended): the response is 403 exactly when the claimed signature
(empty when the header is absent) differs from `sha256=` plus the hex HMAC of
id, timestamp and body, each absent header entering as the empty string;
absence of the signature header itself always yields 403, while absence of
`Message-Id` or `Message-Timestamp` merely substitutes the empty string into
the signed message and can still verify; verification itself never raises,
any server error arises only after successful verification. -/
theorem twitch_403_iff_signature_mismatch (req : TwitchRequest)
    (env : TwitchEnv) (db : Db) :
    ((twitch_webhook req env db).response = .resp 403 "" ↔
      twitchExpectedSignature req env ≠ req.messageSignature.getD "") ∧
    (req.messageSignature = none →
      (twitch_webhook req env db).response = .resp 403 "") ∧
    ((twitch_webhook req env db).response = .serverError →
      twitchExpectedSignature req env = req.messageSignature.getD "") := by
  by_cases hsig : twitchExpectedSignature req env = req.messageSignature.getD ""
  · have hne : (twitch_webhook req env db).response ≠ .resp 403 "" := by
      unfold twitch_webhook
      rw [if_pos hsig]
      split
      · exact twitchChallengeBranch_response_ne_403 _ _
      · split
        · exact twitchNotificationBranch_response_ne_403 _ _ _
        · simp
    refine ⟨⟨fun h403 => absurd h403 hne, fun hmis => absurd hsig hmis⟩,
      fun hnone => ?_, fun _ => hsig⟩
    exfalso
    rw [hnone] at hsig
    exact sha256_append_ne_empty _ hsig
  · have hresp : twitch_webhook req env db = ⟨.resp 403 "", [], db⟩ := by
      unfold twitch_webhook
      rw [if_neg hsig]
    refine ⟨⟨fun _ => hsig, fun _ => by rw [hresp]⟩,
      fun _ => by rw [hresp], fun habs => ?_⟩
    rw [hresp] at habs
    exact absurd habs (by simp)

/-- C3 witness: a request without the signature header is rejected 403. -/
theorem twitch_403_iff_signature_mismatch_witness :
    (twitch_webhook reqC3w envC3w []).response = .resp 403 "" :=
  (twitch_403_iff_signature_mismatch reqC3w envC3w []).2.1 rfl

/-- C3 counterexample: a request lacking the required `Message-Id` header is
nevertheless accepted with 200 when the claimed signature matches the HMAC of
the message built with the empty-string substitute, contradicting the claim
that absence of any required header yields 403. -/
theorem twitch_missing_id_header_verifies_cex :
    reqC3.messageId = none ∧
    (twitch_webhook reqC3 envC3 []).response = .resp 200 "OK" :=
  ⟨rfl, rfl⟩

/-- C4 (amended): the secondary stream-details call is issued with no timeout
at all (requests default: wait indefinitely), and whenever that call raises,
the rendered notification uses exactly the literal fallback strings `Stream
is Live!` for the title and `No Category` for the category, and the pipeline
still completes: the dispatch proceeds and the response is 200. -/
theorem twitch_enrichment_fallback (req : TwitchRequest) (env : TwitchEnv)
    (db : Db) (fs ev : List (String × JsonVal)) (uid uname : String)
    (sub : Subscription)
    (hsig : twitchExpectedSignature req env = req.messageSignature.getD "")
    (hty : req.messageType = some "notification")
    (hjson : req.jsonBody = some (.obj fs))
    (hev : fs.lookup "event" = some (.obj ev))
    (huid : ev.lookup "broadcaster_user_id" = some (.str uid))
    (hname : ev.lookup "broadcaster_user_name" = some (.str uname))
    (hsub : get_subscription db uid = some sub)
    (hplat : sub.platform = "twitch")
    (hchan : env.getChannel sub.channel_id = some ⟨true⟩)
    (hfail : env.streamsResult = .error ()) :
    streamDetailsRequestTimeout = none ∧
    (twitch_webhook req env db).response = .resp 200 "OK" ∧
    (twitch_webhook req env db).dispatches =
      [⟨sub.channel_id, sub.custom_message,
        renderTwitchEmbed uname "Stream is Live!" "No Category" uid⟩] := by
  have hne := lookup_isEmpty_false hev
  refine ⟨rfl, ?_⟩
  unfold twitch_webhook
  rw [if_pos hsig, hty]
  rw [if_neg (by decide), if_pos rfl]
  simp [twitchNotificationBranch, hjson, pyTruthy, hne, pyContains, pyGetItem,
    hev, huid, dbGetPy, hsub, hplat, twitchDispatchStep, hchan, hname,
    enrichTwitch, hfail, pyStr]

/-- C4 witness: concrete run with an erroring secondary call. -/
theorem twitch_enrichment_fallback_witness :
    streamDetailsRequestTimeout = none ∧
    (twitch_webhook reqC4 envC4 dbC4).response = .resp 200 "OK" ∧
    (twitch_webhook reqC4 envC4 dbC4).dispatches =
      [⟨subC4.channel_id, subC4.custom_message,
        renderTwitchEmbed "Bob" "Stream is Live!" "No Category" "42"⟩] :=
  twitch_enrichment_fallback reqC4 envC4 dbC4 fsC4 evC4 "42" "Bob" subC4
    rfl rfl rfl rfl rfl rfl rfl rfl rfl rfl

/-- C4 counterexample: the `requests.get` call fetching stream details passes
no timeout argument, so the call is not bounded by any configured budget. -/
theorem twitch_stream_call_has_no_timeout_cex :
    streamDetailsRequestTimeout = none :=
  rfl

/-- C5: every POST to the YouTube endpoint answers 200 OK, whatever the body
parsed to, including a parse that raised. -/
theorem youtube_post_always_200 (hc : Option String)
    (parsed : Except Unit YtEntry) (gc : Int → Option SinkChannel) (db : Db) :
    (youtube_webhook .post hc parsed gc db).response = .resp 200 "OK" := by
  unfold youtube_webhook
  repeat' split
  all_goals first | rfl | simp_all

/-- C6: a signature-valid handshake whose JSON body carries a string
challenge is answered 200 with exactly that string as body; no dispatch is
created and the registry is untouched. -/
theorem twitch_challenge_echoed (req : TwitchRequest) (env : TwitchEnv)
    (db : Db) (fs : List (String × JsonVal)) (c : String)
    (hsig : twitchExpectedSignature req env = req.messageSignature.getD "")
    (hty : req.messageType = some "webhook_callback_verification")
    (hjson : req.jsonBody = some (.obj fs))
    (hch : fs.lookup "challenge" = some (.str c)) :
    (twitch_webhook req env db).response = .resp 200 c ∧
    (twitch_webhook req env db).dispatches = [] ∧
    (twitch_webhook req env db).db = db := by
  have hne := lookup_isEmpty_false hch
  unfold twitch_webhook
  rw [if_pos hsig, hty, if_pos rfl]
  simp [twitchChallengeBranch, hjson, pyTruthy, hne, pyContains, pyGetItem, hch]

/-- C6 witness: challenge abc123 is echoed verbatim. -/
theorem twitch_challenge_echoed_witness :
    (twitch_webhook reqC6 envC6 []).response = .resp 200 "abc123" ∧
    (twitch_webhook reqC6 envC6 []).dispatches = [] ∧
    (twitch_webhook reqC6 envC6 []).db = [] :=
  twitch_challenge_echoed reqC6 envC6 [] fsC6 "abc123" rfl rfl rfl rfl

/-- C7: a POST whose parsed entry lacks `yt:videoId` or `yt:channelId` is
answered 200 OK with no dispatch. -/
theorem youtube_missing_ids_no_dispatch (hc : Option String)
    (parsed : Except Unit YtEntry) (gc : Int → Option SinkChannel) (db : Db)
    (entry : YtEntry) (hok : parsed = .ok entry)
    (hmiss : entry.videoId = none ∨ entry.channelId = none) :
    (youtube_webhook .post hc parsed gc db).response = .resp 200 "OK" ∧
    (youtube_webhook .post hc parsed gc db).dispatches = [] := by
  subst hok
  rcases hmiss with h | h
  · simp [youtube_webhook, h]
  · cases hv : entry.videoId <;> simp [youtube_webhook, h, hv]

/-- C7 witness: an entry without a video id produces 200 and no dispatch. -/
theorem youtube_missing_ids_no_dispatch_witness :
    (youtube_webhook .post none (.ok entryC7) gcC7 []).response =
      .resp 200 "OK" ∧
    (youtube_webhook .post none (.ok entryC7) gcC7 []).dispatches = [] :=
  youtube_missing_ids_no_dispatch none (.ok entryC7) gcC7 [] entryC7 rfl
    (Or.inl rfl)

/-- C8: a signature-valid, well-formed notification whose broadcaster id has
no subscription in the registry is answered 200 with no dispatch. -/
theorem twitch_no_subscription_no_dispatch (req : TwitchRequest)
    (env : TwitchEnv) (db : Db) (fs ev : List (String × JsonVal)) (uid : String)
    (hsig : twitchExpectedSignature req env = req.messageSignature.getD "")
    (hty : req.messageType = some "notification")
    (hjson : req.jsonBody = some (.obj fs))
    (hev : fs.lookup "event" = some (.obj ev))
    (huid : ev.lookup "broadcaster_user_id" = some (.str uid))
    (hnosub : get_subscription db uid = none) :
    (twitch_webhook req env db).response = .resp 200 "OK" ∧
    (twitch_webhook req env db).dispatches = [] := by
  have hne := lookup_isEmpty_false hev
  unfold twitch_webhook
  rw [if_pos hsig, hty]
  rw [if_neg (by decide), if_pos rfl]
  simp [twitchNotificationBranch, hjson, pyTruthy, hne, pyContains, pyGetItem,
    hev, huid, dbGetPy, hnosub]

/-- C8 witness: broadcaster 77 has no record in the empty registry. -/
theorem twitch_no_subscription_no_dispatch_witness :
    (twitch_webhook reqC8 envC8 []).response = .resp 200 "OK" ∧
    (twitch_webhook reqC8 envC8 []).dispatches = [] :=
  twitch_no_subscription_no_dispatch reqC8 envC8 [] fsC8 evC8 "77"
    rfl rfl rfl rfl rfl rfl

/-- C9: both webhook handlers, over every method they accept, leave the
subscription registry exactly as it was: the gateway only reads it. -/
theorem webhooks_preserve_registry :
    (∀ (req : TwitchRequest) (env : TwitchEnv) (db : Db),
      (twitch_webhook req env db).db = db) ∧
    (∀ (m : HttpMethod) (hc : Option String) (parsed : Except Unit YtEntry)
      (gc : Int → Option SinkChannel) (db : Db),
      (youtube_webhook m hc parsed gc db).db = db) :=
  ⟨twitch_webhook_db_eq, youtube_webhook_db_eq⟩

/-- C10: a dispatch happens only through a subscription record whose platform
matches the receiving endpoint; a record found under a colliding id but
carrying the other platform produces no dispatch on either endpoint. -/
theorem dispatch_requires_matching_platform :
    (∀ (req : TwitchRequest) (env : TwitchEnv) (db : Db)
      (fs ev : List (String × JsonVal)) (uid : String) (sub : Subscription),
      twitchExpectedSignature req env = req.messageSignature.getD "" →
      req.messageType = some "notification" →
      req.jsonBody = some (.obj fs) →
      fs.lookup "event" = some (.obj ev) →
      ev.lookup "broadcaster_user_id" = some (.str uid) →
      get_subscription db uid = some sub →
      sub.platform ≠ "twitch" →
      (twitch_webhook req env db).dispatches = []) ∧
    (∀ (hc : Option String) (parsed : Except Unit YtEntry)
      (gc : Int → Option SinkChannel) (db : Db) (entry : YtEntry)
      (v c : String) (sub : Subscription),
      parsed = .ok entry →
      entry.videoId = some v → v ≠ "" →
      entry.channelId = some c → c ≠ "" →
      get_subscription db c = some sub →
      sub.platform ≠ "youtube" →
      (youtube_webhook .post hc parsed gc db).dispatches = []) := by
  constructor
  · intro req env db fs ev uid sub hsig hty hjson hev huid hsub hplat
    have hne := lookup_isEmpty_false hev
    unfold twitch_webhook
    rw [if_pos hsig, hty]
    rw [if_neg (by decide), if_pos rfl]
    simp [twitchNotificationBranch, hjson, pyTruthy, hne, pyContains,
      pyGetItem, hev, huid, dbGetPy, hsub, hplat]
  · intro hc parsed gc db entry v c sub hok hv hvne hcid hcne hsub hplat
    subst hok
    simp [youtube_webhook, hv, hcid, hvne, hcne, hsub, hplat,
      String.isEmpty_iff]

/-- C10 witness: colliding ids across the flat registry dispatch on neither
endpoint when the platform differs. -/
theorem dispatch_requires_matching_platform_witness :
    (twitch_webhook reqC10 envC10 dbC10).dispatches = [] ∧
    (youtube_webhook .post none (.ok entryC10) gcC10 dbC10y).dispatches = [] :=
  ⟨dispatch_requires_matching_platform.1 reqC10 envC10 dbC10 fsC10 evC10
      "555" subC10yt rfl rfl rfl rfl rfl rfl (by decide),
    dispatch_requires_matching_platform.2 none (.ok entryC10) gcC10 dbC10y
      entryC10 "vid" "UC9" subC10tw rfl rfl (by decide) rfl (by decide) rfl
      (by decide)⟩
